import Mathlib

/-!
Verification of the inventory-recognition prototypes.

This file contains a shallow embedding of the logic the design document talks
about: the multi-model fallback around the generative-AI call
(`GeminiUtils.get_available_model` and `GeminiUtils.generate_content` in
`gemini_utils.py`), the document-store operations of `firebase_utils.py`, the
simulated detector `detectar_productos` of `app.py`, and the attribute
matcher described in the design document (whose source file is not among the
provided sources; it is modelled from the spec, see its doc comment).

External services are modelled as environments: a function from the model
identifier (or the store operation) to the outcome the remote service
produces, which is either a raised exception carrying a message or a response
object. Each Python function is translated into a total Lean function over
these environments; an uncaught Python exception is an `Except.error` or a
`CallResult.raised` value, never a Lean failure.
-/

/-- One remote generation response, as the Python code observes it:
`blockReason` models `response.prompt_feedback.block_reason` (`none` when the
feedback is absent or the reason is falsy), `safetyFinish` models
`response.candidates and response.candidates[0].finish_reason == "SAFETY"`
folded into one Boolean, and `text` models `response.text` (the empty string
is Python-falsy, i.e. "no usable content body"). -/
structure GenResponse where
  blockReason : Option String
  safetyFinish : Bool
  text : String
deriving DecidableEq

/-- A remote call either raises an exception carrying a message or returns a
response object. -/
inductive CallResult where
  | raised (msg : String)
  | ok (resp : GenResponse)
deriving DecidableEq

/-- Behaviour of the remote generative-AI service during one invocation:
`probe m` is the result of the `model.generate_content("Hola")` test issued
by `get_available_model` for model `m`; `gen m` is the result of the real
`model.generate_content(content_parts)` issued by `generate_content` for
model `m`. Within a single invocation each model is probed at most once and
generated-from at most once, so one result per model and call kind suffices. -/
structure Env where
  probe : String → CallResult
  gen : String → CallResult

/-- The `model_config` dictionary built in `GeminiUtils.__init__`. -/
structure ModelConfig where
  temperature : ℚ
  top_p : ℚ
  top_k : ℕ
  max_output_tokens : ℕ
  response_mime_type : String
deriving DecidableEq

/-- One entry of the `safety_settings` list built in `GeminiUtils.__init__`. -/
structure SafetySetting where
  category : String
  threshold : String
deriving DecidableEq

/-- The instance state of a `GeminiUtils` object: the ordered model list
`self.models`, the mutable `self.current_model`, and the configuration
dictionaries `self.model_config` and `self.safety_settings`. -/
structure GeminiState where
  models : List String
  currentModel : Option String
  modelConfig : ModelConfig
  safetySettings : List SafetySetting
deriving DecidableEq

/-- `self.models` as set in `GeminiUtils.__init__` (priority order). -/
def geminiModels : List String :=
  ["gemini-1.5-flash-002", "gemini-1.5-flash-8b", "gemini-1.5-flash",
   "gemini-1.5-pro-002", "gemini-1.5-pro", "gemini-1.0-pro"]

/-- `self.model_config` as set in `GeminiUtils.__init__`. -/
def model_config : ModelConfig :=
  { temperature := 0.1, top_p := 0.8, top_k := 20,
    max_output_tokens := 2048, response_mime_type := "text/plain" }

/-- `self.safety_settings` as set in `GeminiUtils.__init__`. -/
def safety_settings : List SafetySetting :=
  [⟨"HARM_CATEGORY_HARASSMENT", "BLOCK_MEDIUM_AND_ABOVE"⟩,
   ⟨"HARM_CATEGORY_HATE_SPEECH", "BLOCK_MEDIUM_AND_ABOVE"⟩,
   ⟨"HARM_CATEGORY_SEXUALLY_EXPLICIT", "BLOCK_MEDIUM_AND_ABOVE"⟩,
   ⟨"HARM_CATEGORY_DANGEROUS_CONTENT", "BLOCK_MEDIUM_AND_ABOVE"⟩]

/-- State of a `GeminiUtils` instance right after `__init__`
(`self.current_model = None`). -/
def initState : GeminiState :=
  { models := geminiModels, currentModel := none,
    modelConfig := model_config, safetySettings := safety_settings }

/-- The error conditions `GeminiUtils.generate_content` can report; each
constructor corresponds to one `return {"success": False, "error": ...}`
branch of the source, and `renderError` recovers the exact message string. -/
inductive GenError where
  | noModels
  | blocked (reason : String)
  | safetyFiltered
  | noValidResponse
  | transportExhausted (lastError : String)
deriving DecidableEq

/-- The exact `"error"` strings built by `generate_content`. -/
def renderError : GenError → String
  | GenError.noModels => "No hay modelos de IA disponibles"
  | GenError.blocked reason => "Contenido bloqueado: " ++ reason
  | GenError.safetyFiltered => "Respuesta bloqueada por filtros de seguridad"
  | GenError.noValidResponse => "No se generó respuesta válida"
  | GenError.transportExhausted lastError =>
      "No se pudo conectar con ningún modelo de IA disponible. Último error: " ++ lastError

/-- The dictionary returned by `generate_content`: keys `success`, `error`
(kept structured here; `renderError` yields the Python string), `response`,
and `model_used` (the latter present only on the success branch). -/
structure GenOutcome where
  success : Bool
  error : Option GenError
  response : Option String
  model_used : Option String
deriving DecidableEq

/-- The `for model_name in self.models` loop of
`GeminiUtils.get_available_model`: probe each model with the `"Hola"` test
call; on an exception continue with the next model; on a response whose
`.text` is truthy stop and return that model. Returns the found model (if
any) and the list of models probed, in order. -/
def probeLoop (env : Env) : List String → Option String × List String
  | [] => (none, [])
  | m :: rest =>
    match env.probe m with
    | CallResult.raised _ =>
      let r := probeLoop env rest
      (r.1, m :: r.2)
    | CallResult.ok resp =>
      if resp.text ≠ "" then (some m, [m])
      else
        let r := probeLoop env rest
        (r.1, m :: r.2)

/-- `GeminiUtils.get_available_model`: runs the probe loop over
`self.models`; on success assigns `self.current_model = model_name` and
returns the name, otherwise returns `None` leaving the state unchanged.
Result: (returned value, updated instance state, probed models). -/
def get_available_model (env : Env) (s : GeminiState) :
    Option String × GeminiState × List String :=
  let p := probeLoop env s.models
  match p.1 with
  | some m => (some m, { s with currentModel := some m }, p.2)
  | none => (none, s, p.2)

/-- Drop leading whitespace characters. -/
def dropLeadWs : List Char → List Char
  | [] => []
  | c :: rest => if c.isWhitespace then dropLeadWs rest else c :: rest

/-- Python's `str.strip()`: remove leading and trailing whitespace. -/
def pyStrip (s : String) : String :=
  ⟨(dropLeadWs (dropLeadWs s.data).reverse).reverse⟩

/-- The response inspection of `generate_content` (lines 126-154 of
`gemini_utils.py`): a truthy `prompt_feedback.block_reason` yields the
"Contenido bloqueado" error; otherwise a first candidate finished with
`"SAFETY"` yields the safety-filter error; otherwise a truthy
`response.text` yields success carrying `response.text.strip()` (here `pyStrip`) and
`model_used = self.current_model`; otherwise the "No se generó respuesta
válida" error. -/
def respOutcome (cm : String) (resp : GenResponse) : GenOutcome :=
  match resp.blockReason with
  | some reason =>
      { success := false, error := some (GenError.blocked reason),
        response := none, model_used := none }
  | none =>
      if resp.safetyFinish then
        { success := false, error := some GenError.safetyFiltered,
          response := none, model_used := none }
      else if resp.text ≠ "" then
        { success := true, error := none,
          response := some (pyStrip resp.text), model_used := some cm }
      else
        { success := false, error := some GenError.noValidResponse,
          response := none, model_used := none }

/-- The models strictly after `self.current_model` in `self.models`: the
recursion of `generate_content` walks `self.models[index+1:]`, where `index`
is `self.models.index(self.current_model)`; when the current model is not in
the list there is no successor and the exception branch returns the final
error (`gemini_utils.py` lines 161-172). -/
def afterCurrent (models : List String) (cm : String) : List String :=
  if cm ∈ models then models.drop (models.indexOf cm + 1) else []

/-- The try/except recursion of `generate_content`, with the current model
`cm` and the list `rest` of models strictly after it (for the program's
duplicate-free `self.models` this is exactly the source's
`self.models[self.models.index(self.current_model) + 1:]` at every step).
An exception from the call moves to the next model, or, when none remains,
returns the final error embedding the message of the exception just raised;
a returned response is inspected by `respOutcome` and never continues to a
further model. Result: (outcome dict, final `self.current_model`, models on
which the real generation call was issued, in order). -/
def genLoop (env : Env) : String → List String → GenOutcome × String × List String
  | cm, [] =>
    match env.gen cm with
    | CallResult.ok resp => (respOutcome cm resp, cm, [cm])
    | CallResult.raised msg =>
      ({ success := false, error := some (GenError.transportExhausted msg),
         response := none, model_used := none }, cm, [cm])
  | cm, next :: rest =>
    match env.gen cm with
    | CallResult.ok resp => (respOutcome cm resp, cm, [cm])
    | CallResult.raised _ =>
      let r := genLoop env next rest
      (r.1, r.2.1, cm :: r.2.2)

/-- The full result of one invocation of `GeminiUtils.generate_content`: the
returned dictionary, the instance state afterwards, and the external calls
made (probe calls from `get_available_model`, then real generation calls). -/
structure InvocationResult where
  outcome : GenOutcome
  state : GeminiState
  probes : List String
  genCalls : List String
deriving DecidableEq

/-- `GeminiUtils.generate_content`: when `self.current_model` is falsy, first
run `get_available_model`; if that returns `None`, return the
"No hay modelos de IA disponibles" error without any generation call;
otherwise issue the generation call on the current model and, on exceptions,
walk the remaining models via `genLoop`. -/
def generate_content (env : Env) (s : GeminiState) : InvocationResult :=
  match s.currentModel with
  | some cm =>
    let r := genLoop env cm (afterCurrent s.models cm)
    { outcome := r.1, state := { s with currentModel := some r.2.1 },
      probes := [], genCalls := r.2.2 }
  | none =>
    let g := get_available_model env s
    match g.1 with
    | none =>
      { outcome := { success := false, error := some GenError.noModels,
                     response := none, model_used := none },
        state := g.2.1, probes := g.2.2, genCalls := [] }
    | some m =>
      let r := genLoop env m (afterCurrent g.2.1.models m)
      { outcome := r.1, state := { g.2.1 with currentModel := some r.2.1 },
        probes := g.2.2, genCalls := r.2.2 }

/-- A Firestore document's data: a flat string-keyed mapping (Python `dict`),
modelled as an association list with string values. -/
abbrev Item := List (String × String)

/-- Python `'timestamp' in item_data` membership test. -/
def hasKey (d : Item) (k : String) : Bool :=
  d.any (fun p => p.1 == k)

/-- Python `d.get(k)` / `d[k]`: the value stored under the first occurrence
of the key. -/
def lookupKey (d : Item) (k : String) : Option String :=
  (d.find? (fun p => p.1 == k)).map (fun p => p.2)

/-- Lines 74-75 of `firebase_utils.py`: `add_inventory_item` inserts
`self.get_timestamp()` under `'timestamp'` only when the key is absent; the
resulting mapping is exactly what is handed to the store client's `add`. -/
def timestamped (now : String) (item_data : Item) : Item :=
  if hasKey item_data "timestamp" then item_data
  else item_data ++ [("timestamp", now)]

/-- A document-store client call either returns a value or raises an
exception carrying a message. -/
inductive StoreCall (α : Type) where
  | ok (a : α)
  | raised (msg : String)
deriving DecidableEq

/-- Behaviour of the Firestore client during one operation: `addCall d` is
the result of `self.db.collection('inventory').add(d)` (the created
document's id on success), `streamCall` the result of materialising the
`order_by('timestamp', DESCENDING).limit(limit).stream()` query of
`get_inventory_items` (the query runs remotely, so its ordered, limited
document list is the client's response). -/
structure FsEnv where
  addCall : Item → StoreCall String
  streamCall : StoreCall (List Item)

/-- `FirebaseUtils.add_inventory_item`: adds the timestamped mapping to the
`'inventory'` collection; a client exception is caught, logged, and
re-raised (`raise` in the `except` branch), here `Except.error` with the
original message. -/
def add_inventory_item (env : FsEnv) (now : String) (item_data : Item) :
    Except String String :=
  match env.addCall (timestamped now item_data) with
  | StoreCall.ok docId => Except.ok docId
  | StoreCall.raised msg => Except.error msg

/-- `FirebaseUtils.get_inventory_items`: materialises the query stream; a
client exception is caught, logged, and re-raised. -/
def get_inventory_items (env : FsEnv) : Except String (List Item) :=
  match env.streamCall with
  | StoreCall.ok items => Except.ok items
  | StoreCall.raised msg => Except.error msg

/-- The `'inventory'` collection: documents keyed by their identifier. -/
abbrev Store := List (String × Item)

/-- Modelled from the spec: the document-store client (an external
collaborator, not part of the provided sources) offers delete-by-identifier
on flat keyed records; deleting an identifier removes the document when
present and completes without error when it is absent (the store boundary
of the spec, §6, and the idempotence property of §8). -/
def clientDelete (s : Store) (item_id : String) : Store :=
  s.filter (fun p => !(p.1 == item_id))

/-- `FirebaseUtils.delete_inventory_item`: issues the client delete on
`self.db.collection('inventory').document(item_id)` and returns `True`;
with the client semantics above the call never raises, so the `except`
re-raise branch is unreachable. Result: (collection afterwards, returned
Boolean). -/
def delete_inventory_item (s : Store) (item_id : String) : Store × Bool :=
  (clientDelete s item_id, true)

/-- The pattern matches the beginning of the character list. -/
def leadMatch : List Char → List Char → Bool
  | [], _ => true
  | _ :: _, [] => false
  | a :: as, b :: bs => a == b && leadMatch as bs

/-- The pattern occurs somewhere in the character list. -/
def containsChars (pat : List Char) : List Char → Bool
  | [] => pat.isEmpty
  | c :: rest => leadMatch pat (c :: rest) || containsChars pat rest

/-- Python's `tok in blob` substring containment on strings. -/
def strContains (s pat : String) : Bool :=
  containsChars pat.data s.data

/-- Python's `str.split()`: split on whitespace, dropping empty pieces. -/
def whitespaceTokens (s : String) : List String :=
  (s.split Char.isWhitespace).filter (fun t => !(t == ""))

/-- The six-field structured description of one object, as produced by the
vision-language extraction step (spec §3): every field informally typed
free text, sequences possibly empty. -/
structure AttributeRecord where
  main_object : String
  main_color : String
  secondary_colors : List String
  shape : String
  material : String
  features : List String
deriving DecidableEq

/-- Modelled from the spec: the lower-cased blob the matcher scores against —
`main_object`, `main_color`, all `secondary_colors` (space-joined), `shape`,
`material`, and all `features` (space-joined), concatenated (spec §4.3). -/
def attributeBlob (r : AttributeRecord) : String :=
  (String.intercalate " "
    ([r.main_object, r.main_color] ++ r.secondary_colors ++
     [r.shape, r.material] ++ r.features)).toLower

/-- Modelled from the spec: a candidate name's score — lower-case the name,
split it on whitespace into tokens, and count how many tokens occur as
substrings anywhere in the blob (spec §4.3). -/
def tokenScore (blob name : String) : ℕ :=
  ((whitespaceTokens name.toLower).filter (fun tok => strContains blob tok)).length

/-- Modelled from the spec: the matcher's scan, tracking the candidate with
the strictly highest score seen so far (first-seen wins on ties: a later
candidate with an equal score does not replace the current best). -/
def bestCandidate (blob : String) (candidates : List String) :
    Option (String × ℕ) :=
  candidates.foldl
    (fun best name =>
      match best with
      | none => some (name, tokenScore blob name)
      | some (bn, bs) =>
          if tokenScore blob name > bs then some (name, tokenScore blob name)
          else some (bn, bs))
    none

/-- The sentinel returned when the candidate list is empty (spec §4.3
precondition handling: "inventory empty"). -/
def inventoryEmptySentinel : String := "Inventario vacío"

/-- The sentinel returned when no candidate scores above zero (spec §3,
glossary: the fixed "not found" string). -/
def notFoundSentinel : String := "Artículo no encontrado"

/-- Modelled from the spec: the `AttributeMatcher` component (spec §4.3); its
source file is not among the provided sources. With an empty candidate
sequence it returns the "inventory empty" sentinel immediately, scoring
nothing; otherwise it returns the highest-scoring candidate's name when its
score is strictly positive and the "not found" sentinel otherwise. -/
def attributeMatcher (r : AttributeRecord) (candidates : List String) : String :=
  if candidates.isEmpty then inventoryEmptySentinel
  else
    match bestCandidate (attributeBlob r) candidates with
    | some (bn, bs) => if bs > 0 then bn else notFoundSentinel
    | none => notFoundSentinel

/-- One element of the list returned by `detectar_productos` in `app.py`:
keys `etiqueta`, `confianza`, `caja` (`[x1, y1, x2, y2]`). The literal
confidences are exact decimal constants, modelled as rationals. -/
structure Deteccion where
  etiqueta : String
  confianza : ℚ
  caja : List ℤ
deriving DecidableEq

/-- The `productos_detectados` literal built inside `detectar_productos`
(`app.py` lines 17-22). -/
def productos_detectados : List Deteccion :=
  [⟨"Caja de Tornillos", 0.95, [50, 70, 250, 220]⟩,
   ⟨"Botella de Agua", 0.89, [300, 150, 400, 350]⟩,
   ⟨"Lata de Pintura", 0.92, [450, 100, 600, 280]⟩,
   ⟨"Caja de Tornillos", 0.91, [60, 250, 260, 400]⟩]

/-- `detectar_productos` of `app.py`: the simulated detector. Its parameter
`imagen_np` is never inspected; the fixed literal list is returned for every
input image (of any type). -/
def detectar_productos {Img : Type} (_imagen_np : Img) : List Deteccion :=
  productos_detectados

/-- Service behaviour exhibiting a content-safety block on the first model:
the probe is unused, the first model's generation call returns a blocked
response with no content, and every other model would answer successfully. -/
def envX1 : Env :=
  { probe := fun _ => CallResult.raised "unused",
    gen := fun m =>
      if m = "gemini-1.5-flash-002" then
        CallResult.ok { blockReason := some "SAFETY", safetyFinish := false, text := "" }
      else
        CallResult.ok { blockReason := none, safetyFinish := false, text := "texto útil" } }

/-- Instance state with the first model already selected. -/
def stateHead : GeminiState :=
  { models := geminiModels, currentModel := some "gemini-1.5-flash-002",
    modelConfig := model_config, safetySettings := safety_settings }

/-- Service behaviour where the availability probe succeeds immediately but
every real generation call raises a transport error. -/
def envX2 : Env :=
  { probe := fun _ =>
      CallResult.ok { blockReason := none, safetyFinish := false, text := "Hola" },
    gen := fun _ => CallResult.raised "503 Service Unavailable" }

/-- Service behaviour where every call (probe or generation) raises. -/
def envW2 : Env :=
  { probe := fun _ => CallResult.raised "w",
    gen := fun _ => CallResult.raised "w" }

/-- Service behaviour where the first model's generation call raises and the
second model answers successfully. -/
def envX3 : Env :=
  { probe := fun _ => CallResult.raised "unused",
    gen := fun m =>
      if m = "gemini-1.5-flash-002" then CallResult.raised "timeout"
      else CallResult.ok { blockReason := none, safetyFinish := false, text := "hola" } }

/-- Service behaviour where every call raises with the message "boom". -/
def envX4 : Env :=
  { probe := fun _ => CallResult.raised "boom",
    gen := fun _ => CallResult.raised "boom" }

/-- Service behaviour where the first model returns a response that carries
both a non-empty content body and an explicit block reason. -/
def envX5 : Env :=
  { probe := fun _ => CallResult.raised "unused",
    gen := fun m =>
      if m = "gemini-1.5-flash-002" then
        CallResult.ok { blockReason := some "OTHER", safetyFinish := false, text := "hola" }
      else
        CallResult.ok { blockReason := none, safetyFinish := false, text := "hola" } }

/-- Service behaviour where every generation call returns a clean, non-empty
response with surrounding whitespace. -/
def envW5 : Env :=
  { probe := fun _ => CallResult.raised "unused",
    gen := fun _ =>
      CallResult.ok { blockReason := none, safetyFinish := false, text := " hola " } }

/-- Store behaviour where every client call raises "network down". -/
def envX6 : FsEnv :=
  { addCall := fun _ => StoreCall.raised "network down",
    streamCall := StoreCall.raised "network down" }

theorem probeLoop_trace_front (env : Env) (models : List String) :
    (probeLoop env models).2 <+: models := by
  induction models with
  | nil => simp [probeLoop]
  | cons m rest ih =>
    cases h : env.probe m with
    | raised msg =>
      obtain ⟨t, ht⟩ := ih
      exact ⟨t, by simp [probeLoop, h, ht]⟩
    | ok resp =>
      by_cases he : resp.text = ""
      · obtain ⟨t, ht⟩ := ih
        exact ⟨t, by simp [probeLoop, h, he, ht]⟩
      · exact ⟨rest, by simp [probeLoop, h, he]⟩

theorem genLoop_ok (env : Env) (cm : String) (rest : List String)
    (resp : GenResponse) (h : env.gen cm = CallResult.ok resp) :
    genLoop env cm rest = (respOutcome cm resp, cm, [cm]) := by
  cases rest <;> simp [genLoop, h]

theorem genLoop_raised_cons (env : Env) (cm next : String) (rest : List String)
    (msg : String) (h : env.gen cm = CallResult.raised msg) :
    genLoop env cm (next :: rest) =
      ((genLoop env next rest).1, (genLoop env next rest).2.1,
       cm :: (genLoop env next rest).2.2) := by
  simp [genLoop, h]

theorem genLoop_trace_front (env : Env) (rest : List String) :
    ∀ cm, (genLoop env cm rest).2.2 <+: cm :: rest := by
  induction rest with
  | nil => intro cm; cases h : env.gen cm <;> simp [genLoop, h]
  | cons next rest ih =>
    intro cm
    cases h : env.gen cm with
    | ok resp => simp [genLoop, h]
    | raised msg =>
      rw [genLoop_raised_cons env cm next rest msg h]
      obtain ⟨t, ht⟩ := ih next
      exact ⟨t, by simpa using congrArg (List.cons cm) ht⟩

theorem genLoop_allRaised (env : Env) (rest : List String) :
    ∀ cm, (∀ m ∈ cm :: rest, ∃ msg, env.gen m = CallResult.raised msg) →
      ∃ msg,
        env.gen ((cm :: rest).getLast (List.cons_ne_nil cm rest)) =
          CallResult.raised msg ∧
        genLoop env cm rest =
          ({ success := false, error := some (GenError.transportExhausted msg),
             response := none, model_used := none },
           (cm :: rest).getLast (List.cons_ne_nil cm rest), cm :: rest) := by
  induction rest with
  | nil =>
    intro cm hall
    obtain ⟨msg, hmsg⟩ := hall cm (by simp)
    exact ⟨msg, by simpa using hmsg, by simp [genLoop, hmsg]⟩
  | cons next rest ih =>
    intro cm hall
    obtain ⟨msg0, hmsg0⟩ := hall cm (by simp)
    obtain ⟨msg, hlast, hloop⟩ := ih next (fun m hm => hall m (List.mem_cons_of_mem cm hm))
    refine ⟨msg, ?_, ?_⟩
    · simpa [List.getLast_cons] using hlast
    · rw [genLoop_raised_cons env cm next rest msg0 hmsg0, hloop]
      simp [List.getLast_cons]

theorem generate_content_some (env : Env) (s : GeminiState) (cm : String)
    (h : s.currentModel = some cm) :
    generate_content env s =
      { outcome := (genLoop env cm (afterCurrent s.models cm)).1,
        state := { s with currentModel := some (genLoop env cm (afterCurrent s.models cm)).2.1 },
        probes := [],
        genCalls := (genLoop env cm (afterCurrent s.models cm)).2.2 } := by
  simp [generate_content, h]

theorem afterCurrent_cons (cm : String) (rest : List String) :
    afterCurrent (cm :: rest) cm = rest := by
  simp [afterCurrent, List.indexOf_cons_self]

/-- C1, counterexample: on the program's own model list with the first model
selected, the first model's response has no usable content body (`text = ""`)
and carries an explicit block reason, and the next model would answer
successfully — yet the invocation issues no further generation call (the
only generation call is the first model) and returns the block error: the
fallback sequence terminates at the block instead of continuing, contrary to
the claim. -/
theorem spec_c1_counterexample :
    envX1.gen "gemini-1.5-flash-002" =
      CallResult.ok { blockReason := some "SAFETY", safetyFinish := false, text := "" } ∧
    envX1.gen "gemini-1.5-flash-8b" =
      CallResult.ok { blockReason := none, safetyFinish := false, text := "texto útil" } ∧
    (generate_content envX1 stateHead).genCalls = ["gemini-1.5-flash-002"] ∧
    "gemini-1.5-flash-8b" ∉ (generate_content envX1 stateHead).genCalls ∧
    (generate_content envX1 stateHead).outcome.error = some (GenError.blocked "SAFETY") ∧
    (generate_content envX1 stateHead).outcome.success = false := by
  decide

/-- C1, amended: when the current model's response carries an explicit
content-safety block reason, `generate_content` records it as a condition
distinguishable from a transport error (the structured `blocked` error,
rendered "Contenido bloqueado: ...", never equal to a `transportExhausted`
error) but returns that error immediately: the invocation terminates with a
single generation call and does not continue to the next model identifier. -/
theorem spec_c1_theorem (env : Env) (s : GeminiState) (cm br : String)
    (resp : GenResponse) (h1 : s.currentModel = some cm)
    (h2 : env.gen cm = CallResult.ok resp) (h3 : resp.blockReason = some br) :
    (generate_content env s).outcome =
      { success := false, error := some (GenError.blocked br),
        response := none, model_used := none } ∧
    (generate_content env s).genCalls = [cm] ∧
    renderError (GenError.blocked br) = "Contenido bloqueado: " ++ br ∧
    (∀ msg, GenError.blocked br ≠ GenError.transportExhausted msg) := by
  have hgc := generate_content_some env s cm h1
  have hloop := genLoop_ok env cm (afterCurrent s.models cm) resp h2
  rw [hgc, hloop]
  refine ⟨?_, rfl, rfl, fun msg h => by cases h⟩
  simp [respOutcome, h3]

/-- C1, witness for the amended theorem at a concrete input. -/
theorem spec_c1_witness :
    (generate_content envX1 stateHead).outcome =
      { success := false, error := some (GenError.blocked "SAFETY"),
        response := none, model_used := none } ∧
    (generate_content envX1 stateHead).genCalls = ["gemini-1.5-flash-002"] ∧
    renderError (GenError.blocked "SAFETY") = "Contenido bloqueado: " ++ "SAFETY" ∧
    (∀ msg, GenError.blocked "SAFETY" ≠ GenError.transportExhausted msg) :=
  spec_c1_theorem envX1 stateHead "gemini-1.5-flash-002" "SAFETY"
    { blockReason := some "SAFETY", safetyFinish := false, text := "" }
    rfl (by decide) rfl

/-- C2, counterexample: on the program's own fresh state (no current model),
a service for which the first model's availability probe succeeds but every
generation call raises makes 7 external calls for the 6-model list — the
first model receives two calls (one probe and one generation call) — so the
per-identifier and total-call bounds of the claim fail. -/
theorem spec_c2_counterexample :
    geminiModels.length = 6 ∧
    (generate_content envX2 initState).probes = ["gemini-1.5-flash-002"] ∧
    (generate_content envX2 initState).genCalls = geminiModels ∧
    (generate_content envX2 initState).probes.length +
      (generate_content envX2 initState).genCalls.length = 7 ∧
    "gemini-1.5-flash-002" ∈ (generate_content envX2 initState).probes ∧
    "gemini-1.5-flash-002" ∈ (generate_content envX2 initState).genCalls := by
  decide

/-- C2, amended: when the current model is already set (to the head of the
list), no availability probe is issued, at most one generation call is made
per model identifier (the call list has no duplicates), the total call count
is bounded by the list length, and when every model's call raises the
invocation makes exactly one call per model (the call list is the whole
model list) and returns exactly one structured error result. On a fresh
state, however, the same identifier can additionally receive an availability
probe, so the claim's bounds only hold once a model is selected (see the
counterexample). -/
theorem spec_c2_theorem (env : Env) (cm : String) (rest : List String)
    (hnd : (cm :: rest).Nodup) :
    (generate_content env
        ⟨cm :: rest, some cm, model_config, safety_settings⟩).probes = [] ∧
    (generate_content env
        ⟨cm :: rest, some cm, model_config, safety_settings⟩).genCalls.length ≤
      (cm :: rest).length ∧
    (generate_content env
        ⟨cm :: rest, some cm, model_config, safety_settings⟩).genCalls.Nodup ∧
    ((∀ m ∈ cm :: rest, ∃ msg, env.gen m = CallResult.raised msg) →
      (generate_content env
          ⟨cm :: rest, some cm, model_config, safety_settings⟩).genCalls = cm :: rest ∧
      (generate_content env
          ⟨cm :: rest, some cm, model_config, safety_settings⟩).outcome.success = false ∧
      ∃ msg,
        (generate_content env
            ⟨cm :: rest, some cm, model_config, safety_settings⟩).outcome.error =
          some (GenError.transportExhausted msg)) := by
  have hgc := generate_content_some env
    ⟨cm :: rest, some cm, model_config, safety_settings⟩ cm rfl
  rw [hgc, afterCurrent_cons]
  refine ⟨rfl, ?_, ?_, ?_⟩
  · exact ((genLoop_trace_front env rest cm).sublist).length_le
  · exact hnd.sublist ((genLoop_trace_front env rest cm).sublist)
  · intro hall
    obtain ⟨msg, hlast, hloop⟩ := genLoop_allRaised env rest cm hall
    rw [hloop]
    exact ⟨rfl, rfl, msg, rfl⟩

/-- C2, witness for the amended theorem at a concrete input: a two-model
list with the first model selected, every call raising "w". -/
theorem spec_c2_witness :
    (generate_content envW2 ⟨["a", "b"], some "a", model_config, safety_settings⟩).probes = [] ∧
    (generate_content envW2 ⟨["a", "b"], some "a", model_config, safety_settings⟩).genCalls = ["a", "b"] ∧
    (generate_content envW2 ⟨["a", "b"], some "a", model_config, safety_settings⟩).outcome.success = false ∧
    (generate_content envW2 ⟨["a", "b"], some "a", model_config, safety_settings⟩).outcome.error =
      some (GenError.transportExhausted "w") := by
  have h := spec_c2_theorem envW2 "a" ["b"] (by decide)
  have h2 := h.2.2.2 (fun m _ => ⟨"w", rfl⟩)
  exact ⟨h.1, h2.1, h2.2.1, by decide⟩

/-- C3, counterexample: with the first model selected, a raising first call
followed by a successful second call leaves `current_model` reassigned to
the second model — the invocation mutates instance state beyond the network
call — and a repeated invocation from the resulting state observes the
changed state and issues a different sequence of generation calls, contrary
to the claim that all instance state read is read-only. -/
theorem spec_c3_counterexample :
    stateHead.currentModel = some "gemini-1.5-flash-002" ∧
    (generate_content envX3 stateHead).state.currentModel = some "gemini-1.5-flash-8b" ∧
    (generate_content envX3 stateHead).state.currentModel ≠ stateHead.currentModel ∧
    (generate_content envX3 ((generate_content envX3 stateHead).state)).genCalls ≠
      (generate_content envX3 stateHead).genCalls := by
  decide

/-- C3, amended: the model list, the generation configuration and the safety
settings are read-only — no invocation of `generate_content` changes them —
but `current_model` is mutable instance state that an invocation may
reassign (see the counterexample), so repeated invocations need not observe
the same current model. -/
theorem spec_c3_theorem (env : Env) (s : GeminiState) :
    (generate_content env s).state.models = s.models ∧
    (generate_content env s).state.modelConfig = s.modelConfig ∧
    (generate_content env s).state.safetySettings = s.safetySettings := by
  have hg : (get_available_model env s).2.1.models = s.models ∧
      (get_available_model env s).2.1.modelConfig = s.modelConfig ∧
      (get_available_model env s).2.1.safetySettings = s.safetySettings := by
    cases hp : (probeLoop env s.models).1 <;>
      simp [get_available_model, hp]
  cases hcm : s.currentModel with
  | some cm =>
    rw [generate_content_some env s cm hcm]
    exact ⟨rfl, rfl, rfl⟩
  | none =>
    cases hg1 : (get_available_model env s).1 with
    | none =>
      simp only [generate_content, hcm, hg1]
      exact hg
    | some m =>
      simp only [generate_content, hcm, hg1]
      exact hg

/-- C4, counterexample: on the program's own fresh state, a service on which
every call raises "boom" exhausts every model identifier without a usable
result, yet the returned structured error is the fixed `noModels` error
("No hay modelos de IA disponibles"), which is not a `transportExhausted`
error and whose rendered message does not embed the last recorded error
"boom", contrary to the claim. -/
theorem spec_c4_counterexample :
    envX4.probe "gemini-1.5-flash-002" = CallResult.raised "boom" ∧
    envX4.probe "gemini-1.0-pro" = CallResult.raised "boom" ∧
    (generate_content envX4 initState).outcome.success = false ∧
    (generate_content envX4 initState).outcome.error = some GenError.noModels ∧
    GenError.noModels ≠ GenError.transportExhausted "boom" ∧
    strContains (renderError GenError.noModels) "boom" = false := by
  decide

/-- C4, amended: when a current model is set and every model from it to the
end of the list raises, the invocation returns — never throws — exactly one
structured error value, a `transportExhausted` error embedding the message
of the last raised error (rendered "No se pudo conectar con ningún modelo de
IA disponible. Último error: ..."); when instead no current model is set and
no model passes the availability probe, the invocation returns the fixed
`noModels` error, which embeds no underlying reason (see the
counterexample). -/
theorem spec_c4_theorem (env : Env) (cm : String) (rest : List String)
    (hall : ∀ m ∈ cm :: rest, ∃ msg, env.gen m = CallResult.raised msg) :
    ∃ msg,
      env.gen ((cm :: rest).getLast (List.cons_ne_nil cm rest)) =
        CallResult.raised msg ∧
      (generate_content env ⟨cm :: rest, some cm, model_config, safety_settings⟩).outcome =
        { success := false, error := some (GenError.transportExhausted msg),
          response := none, model_used := none } ∧
      renderError (GenError.transportExhausted msg) =
        "No se pudo conectar con ningún modelo de IA disponible. Último error: " ++ msg := by
  have hgc := generate_content_some env
    ⟨cm :: rest, some cm, model_config, safety_settings⟩ cm rfl
  obtain ⟨msg, hlast, hloop⟩ := genLoop_allRaised env rest cm hall
  refine ⟨msg, hlast, ?_, rfl⟩
  rw [hgc, afterCurrent_cons, hloop]

/-- C4, witness for the amended theorem at a concrete input: a one-model
list whose only call raises "w". -/
theorem spec_c4_witness :
    (generate_content envW2 ⟨["a"], some "a", model_config, safety_settings⟩).outcome =
      { success := false, error := some (GenError.transportExhausted "w"),
        response := none, model_used := none } := by
  obtain ⟨msg, hmsg, hout, _⟩ := spec_c4_theorem envW2 "a" [] (fun m _ => ⟨"w", rfl⟩)
  have hw : CallResult.raised "w" = CallResult.raised msg := hmsg
  cases hw
  exact hout

/-- C5, counterexample: the first model's response carries a non-empty
content body ("hola") together with a block reason; the claim demands the
content be returned as the successful result, but the invocation returns
the block error with no response content — the block check takes precedence
over the non-empty body. -/
theorem spec_c5_counterexample :
    envX5.gen "gemini-1.5-flash-002" =
      CallResult.ok { blockReason := some "OTHER", safetyFinish := false, text := "hola" } ∧
    (generate_content envX5 stateHead).outcome.success = false ∧
    (generate_content envX5 stateHead).outcome.response = none ∧
    (generate_content envX5 stateHead).outcome.error = some (GenError.blocked "OTHER") := by
  decide

/-- C5, amended: when the current model's response has a non-empty content
body, no content-safety block reason and no `"SAFETY"` finish, the
(whitespace-stripped) content is returned immediately as the successful
result — with the model recorded in `model_used` — and no later model in the
list is attempted (the invocation issues exactly one generation call); in
particular this holds when the first model of the list is current. A block
reason takes precedence over a non-empty body (see the counterexample). -/
theorem spec_c5_theorem (env : Env) (s : GeminiState) (cm : String)
    (resp : GenResponse) (h1 : s.currentModel = some cm)
    (h2 : env.gen cm = CallResult.ok resp) (h3 : resp.blockReason = none)
    (h4 : resp.safetyFinish = false) (h5 : resp.text ≠ "") :
    (generate_content env s).outcome =
      { success := true, error := none,
        response := some (pyStrip resp.text), model_used := some cm } ∧
    (generate_content env s).genCalls = [cm] := by
  have hgc := generate_content_some env s cm h1
  have hloop := genLoop_ok env cm (afterCurrent s.models cm) resp h2
  rw [hgc, hloop]
  refine ⟨?_, rfl⟩
  simp [respOutcome, h3, h4, h5]

/-- C5, witness for the amended theorem at a concrete input: the first model
answers " hola ", which is stripped and returned with no further call. -/
theorem spec_c5_witness :
    (generate_content envW5 stateHead).outcome =
      { success := true, error := none,
        response := some "hola", model_used := some "gemini-1.5-flash-002" } ∧
    (generate_content envW5 stateHead).genCalls = ["gemini-1.5-flash-002"] := by
  have h := spec_c5_theorem envW5 stateHead "gemini-1.5-flash-002"
    { blockReason := none, safetyFinish := false, text := " hola " }
    rfl rfl rfl rfl (by decide)
  have ht : pyStrip " hola " = "hola" := by decide
  rw [ht] at h
  exact h

/-- C6, counterexample: when the store client raises "network down" during
an add or a get-all, the store-layer methods re-raise (`raise` in their
`except` branches): the failure reaches the caller as an exception
(`Except.error`), not as a result value, contrary to the claim that it is
never allowed to propagate past the point of the call. -/
theorem spec_c6_counterexample :
    add_inventory_item envX6 "2025-01-01T00:00:00" [("descripcion", "taza")] =
      Except.error "network down" ∧
    get_inventory_items envX6 = Except.error "network down" := by
  exact ⟨rfl, rfl⟩

/-- C6, amended: a client failure during a store operation is caught at the
point of the call, logged, and then re-raised to the caller with its
original message: the operation surfaces the failure as an exception (the
`Except.error` carrying the client's message), not as a result value; the
orchestration call sites wrap these calls in their own handlers. -/
theorem spec_c6_theorem (env : FsEnv) (now : String) (item_data : Item)
    (msg msg2 : String)
    (h1 : env.addCall (timestamped now item_data) = StoreCall.raised msg)
    (h2 : env.streamCall = StoreCall.raised msg2) :
    add_inventory_item env now item_data = Except.error msg ∧
    get_inventory_items env = Except.error msg2 := by
  constructor
  · simp [add_inventory_item, h1]
  · simp [get_inventory_items, h2]

/-- C6, witness for the amended theorem at a concrete input. -/
theorem spec_c6_witness :
    add_inventory_item envX6 "2025-01-01T00:00:00" [] = Except.error "network down" ∧
    get_inventory_items envX6 = Except.error "network down" :=
  spec_c6_theorem envX6 "2025-01-01T00:00:00" [] "network down" "network down" rfl rfl

/-- C7: deleting an identifier that is present in no document of the
collection returns `True`, raises nothing (the client delete completes
normally, so the re-raise branch of `delete_inventory_item` is not taken),
and leaves the collection unchanged — in particular unchanged in element
count. -/
theorem spec_c7_theorem (s : Store) (item_id : String)
    (h : ∀ p ∈ s, p.1 ≠ item_id) :
    (delete_inventory_item s item_id).2 = true ∧
    (delete_inventory_item s item_id).1 = s ∧
    (delete_inventory_item s item_id).1.length = s.length := by
  have hf : clientDelete s item_id = s := by
    apply List.filter_eq_self.mpr
    intro p hp
    simpa using h p hp
  refine ⟨rfl, hf, by rw [show (delete_inventory_item s item_id).1 = s from hf]⟩

/-- C7, witness at a concrete input: a one-document store and an absent
identifier. -/
theorem spec_c7_witness :
    (delete_inventory_item [("id1", [("nombre", "taza")])] "id2").2 = true ∧
    (delete_inventory_item [("id1", [("nombre", "taza")])] "id2").1 =
      [("id1", [("nombre", "taza")])] ∧
    (delete_inventory_item [("id1", [("nombre", "taza")])] "id2").1.length = 1 := by
  have h := spec_c7_theorem [("id1", [("nombre", "taza")])] "id2" (by decide)
  exact ⟨h.1, h.2.1, h.2.2⟩

/-- C8: for every attribute record, the matcher applied to an empty
candidate sequence returns the "inventory empty" sentinel immediately — a
value distinct from the "not found" sentinel — and, being a total function
that scores nothing on this branch, raises no exception. -/
theorem spec_c8_theorem (r : AttributeRecord) :
    attributeMatcher r [] = inventoryEmptySentinel ∧
    attributeMatcher r [] ≠ notFoundSentinel := by
  constructor
  · simp [attributeMatcher]
  · simp only [attributeMatcher, List.isEmpty_nil, if_true]
    decide

/-- C8, witness at a concrete record. -/
theorem spec_c8_witness :
    attributeMatcher ⟨"taza", "blanco", [], "cilíndrica", "cerámica", ["tiene un asa"]⟩ [] =
      inventoryEmptySentinel ∧
    attributeMatcher ⟨"taza", "blanco", [], "cilíndrica", "cerámica", ["tiene un asa"]⟩ [] ≠
      notFoundSentinel :=
  spec_c8_theorem ⟨"taza", "blanco", [], "cilíndrica", "cerámica", ["tiene un asa"]⟩

/-- C9: the simulated detector is a constant function of its input — any two
images, even of different types, yield the identical list of exactly four
detections (same labels, same confidences, same bounding boxes, the literal
`productos_detectados`), so the output carries no information about the
image. -/
theorem spec_c9_theorem {Img Img2 : Type} (a : Img) (b : Img2) :
    detectar_productos a = detectar_productos b ∧
    detectar_productos a = productos_detectados ∧
    (detectar_productos a).length = 4 := by
  exact ⟨rfl, rfl, rfl⟩

/-- C9, witness at concrete inputs of two different types. -/
theorem spec_c9_witness :
    detectar_productos (0 : ℕ) = detectar_productos "otra imagen" ∧
    detectar_productos (0 : ℕ) = productos_detectados ∧
    (detectar_productos (0 : ℕ)).length = 4 :=
  spec_c9_theorem (0 : ℕ) "otra imagen"

/-- C10: the mapping handed to the store client by `add_inventory_item` is
`timestamped now item_data`; when the mapping already contains a
`'timestamp'` key it is passed entirely unchanged, and only when the key is
absent is the generated timestamp appended — every key other than
`'timestamp'` reads back exactly as supplied in both cases. -/
theorem spec_c10_theorem (now : String) (item_data : Item) :
    (hasKey item_data "timestamp" = true → timestamped now item_data = item_data) ∧
    (hasKey item_data "timestamp" = false →
      timestamped now item_data = item_data ++ [("timestamp", now)] ∧
      lookupKey (timestamped now item_data) "timestamp" = some now ∧
      ∀ k, k ≠ "timestamp" →
        lookupKey (timestamped now item_data) k = lookupKey item_data k) := by
  constructor
  · intro h
    simp [timestamped, h]
  · intro h
    have ht : timestamped now item_data = item_data ++ [("timestamp", now)] := by
      simp [timestamped, h]
    refine ⟨ht, ?_, ?_⟩
    · have hnone : item_data.find? (fun p => p.1 == "timestamp") = none := by
        rw [List.find?_eq_none]
        intro p hp hbeq
        have hany : item_data.any (fun q => q.1 == "timestamp") = true :=
          List.any_eq_true.mpr ⟨p, hp, hbeq⟩
        have h2 : item_data.any (fun q => q.1 == "timestamp") = false := h
        rw [hany] at h2
        exact absurd h2 (by decide)
      rw [ht]
      simp [lookupKey, List.find?_append, hnone, List.find?]
    · intro k hk
      rw [ht]
      have hb : ("timestamp" == k) = false := by
        rw [beq_eq_false_iff_ne]
        exact Ne.symm hk
      simp only [lookupKey, List.find?_append, List.find?, hb]
      cases item_data.find? (fun p => p.1 == k) <;> simp [Option.orElse]

/-- C10, witness at concrete inputs: one mapping that already carries a
timestamp (stored unchanged) and one that does not (timestamp appended,
other fields preserved). -/
theorem spec_c10_witness :
    timestamped "t1" [("timestamp", "orig"), ("nombre", "taza")] =
      [("timestamp", "orig"), ("nombre", "taza")] ∧
    timestamped "t1" [("nombre", "taza")] = [("nombre", "taza"), ("timestamp", "t1")] ∧
    lookupKey (timestamped "t1" [("nombre", "taza")]) "timestamp" = some "t1" ∧
    lookupKey (timestamped "t1" [("nombre", "taza")]) "nombre" = some "taza" := by
  have h1 := spec_c10_theorem "t1" [("timestamp", "orig"), ("nombre", "taza")]
  have h2 := spec_c10_theorem "t1" [("nombre", "taza")]
  have h3 := h2.2 (by decide)
  exact ⟨h1.1 (by decide), h3.1, h3.2.1, h3.2.2 "nombre" (by decide)⟩

/-- C3, witness for the amended theorem at a concrete input. -/
theorem spec_c3_witness :
    (generate_content envX3 stateHead).state.models = stateHead.models ∧
    (generate_content envX3 stateHead).state.modelConfig = stateHead.modelConfig ∧
    (generate_content envX3 stateHead).state.safetySettings = stateHead.safetySettings :=
  spec_c3_theorem envX3 stateHead
